import Mathlib

/-
Verification of abin::threadpool (src/include/thread_pool/thread_pool.h, v0.9.2).

The pool is embedded as a sequential state machine. A pool state records the
size of the worker vector, the FIFO task queue, the completion channels of all
futures handed out by submit, the busy counter and the running flag. A task is
modelled by the result its computation would produce: Except.ok v for a normal
return value v, Except.error e for a computation that raises e. One completed
worker-loop iteration (dequeue front, run, store the outcome, busy counter
returns to its previous value) is the function run_task. Joining the workers
during shutdown is modelled big-step: in WaitForAllTasks mode the workers drain
the whole queue before exiting (the wait predicate at line 220 keeps handing
out tasks while the queue is nonempty), in DiscardPendingTasks mode the queue
is swapped for an empty one, which destroys the last shared_ptr to each queued
std::packaged_task and thereby breaks the associated future (broken promise).
-/

namespace abin

/-- State of the completion channel behind the std::future returned by submit:
pending (not yet satisfied), value (the computation returned normally), error
(the computation raised and std::packaged_task captured the exception), or
broken (the packaged_task was destroyed without ever running, so the future
reports a broken-promise failure). -/
inductive Outcome (ε α : Type) where
  | pending : Outcome ε α
  | value : α → Outcome ε α
  | error : ε → Outcome ε α
  | broken : Outcome ε α
deriving DecidableEq

/-- The shutdown modes of the pool (thread_pool.h lines 53-63). -/
inductive shutdown_mode where
  | WaitForAllTasks : shutdown_mode
  | DiscardPendingTasks : shutdown_mode
deriving DecidableEq

/-- The error raised by submit (thread_pool.h line 89): a std::runtime_error
saying the pool is not running. -/
inductive SubmitError where
  | notRunning : SubmitError
deriving DecidableEq

/-- Status snapshot returned by status() (thread_pool.h lines 43-50). -/
structure status_info where
  total_threads : Nat
  busy_threads : Nat
  idle_threads : Nat
  pending_tasks : Nat
  running : Bool
deriving DecidableEq

/-- Pool state. Fields whose name ends in an underscore embed the data members
of the C++ class (thread_pool.h lines 243-252): workers_ is the size of the
worker vector, task_queue_ the FIFO queue (front of the std::queue = head of
the list), busy_count_ and running_ the two atomics. The queue stores, for each
task, the id of its completion channel together with its computation. The
model-only fields channels and next_id track the shared states of all futures
handed out by submit; next_id is the id the next submit call will use. -/
structure threadpool (ε α : Type) where
  workers_ : Nat
  task_queue_ : List (Nat × Except ε α)
  channels : Nat → Outcome ε α
  next_id : Nat
  busy_count_ : Nat
  running_ : Bool

variable {ε α β : Type}

/-- Embeds default_thread_count (thread_pool.h lines 199-203), as a function of
what std::thread::hardware_concurrency() returned. -/
def default_thread_count (hardware_concurrency : Nat) : Nat :=
  if hardware_concurrency = 0 then 4 else hardware_concurrency

/-- Embeds launch_threads (thread_pool.h lines 207-240): if the worker vector
is nonempty it returns at once, otherwise it creates thread_count workers.
Worker-loop iterations themselves are modelled by run_task below. -/
def launch_threads (p : threadpool ε α) (thread_count : Nat) : threadpool ε α :=
  if p.workers_ ≠ 0 then p else { p with workers_ := thread_count }

/-- Embeds the constructor (thread_pool.h lines 68-71): the members start as
empty vector, empty queue, busy_count_ = 0, running_ = true (member
initializers, lines 243-249), then launch_threads runs. There is no validation
of thread_count anywhere on this path. -/
def construct (thread_count : Nat) : threadpool ε α :=
  launch_threads
    { workers_ := 0, task_queue_ := [], channels := fun _ => Outcome.pending,
      next_id := 0, busy_count_ := 0, running_ := true } thread_count

/-- Embeds submit (thread_pool.h lines 86-102): if running_ is false it throws
without touching any state; otherwise it creates a packaged_task and its future
(channel id p.next_id, still pending), appends the task at the back of the
queue under the lock, and returns the future. -/
def submit (p : threadpool ε α) (f : Except ε α) :
    threadpool ε α × Except SubmitError Nat :=
  if p.running_ = false then (p, Except.error SubmitError.notRunning)
  else
    ({ p with task_queue_ := p.task_queue_ ++ [(p.next_id, f)],
              next_id := p.next_id + 1 },
      Except.ok p.next_id)

/-- What invoking the std::packaged_task stores into its shared state: the
return value on normal completion, the captured exception otherwise. -/
def exec_outcome (f : Except ε α) : Outcome ε α :=
  match f with
  | Except.ok v => Outcome.value v
  | Except.error e => Outcome.error e

/-- One completed iteration of the worker loop body (thread_pool.h lines
214-237) when a task is available: pop the front task, run it, store its
outcome in its channel. busy_count_ is incremented before the task runs and
decremented after (lines 225-227), so across the completed iteration it is
unchanged. -/
def run_task (p : threadpool ε α) : threadpool ε α :=
  match p.task_queue_ with
  | [] => p
  | (fid, f) :: rest =>
      { p with task_queue_ := rest,
               channels := fun i => if i = fid then exec_outcome f else p.channels i }

/-- Iterated worker steps. -/
def run_tasks : threadpool ε α → Nat → threadpool ε α
  | p, 0 => p
  | p, n + 1 => run_tasks (run_task p) n

/-- The workers drain the whole queue: with running_ = false they keep taking
tasks while the queue is nonempty and exit only once it is empty (the wait
predicate and exit test, thread_pool.h lines 220-221). -/
def drain (p : threadpool ε α) : threadpool ε α :=
  run_tasks p p.task_queue_.length

/-- Embeds shutdown (thread_pool.h lines 115-133). If the pool is already
stopped it returns at once. Otherwise running_ is set to false; in
DiscardPendingTasks mode the queue is swapped with an empty one, which destroys
the queued closures and hence the last shared_ptr to each queued
packaged_task, breaking the corresponding channel; in WaitForAllTasks mode the
workers drain the queue. Finally every worker is joined (so no worker is still
executing) and the worker vector is cleared. -/
def shutdown (p : threadpool ε α) (mode : shutdown_mode) : threadpool ε α :=
  if p.running_ = false then p
  else
    let stopped : threadpool ε α := { p with running_ := false }
    let after :=
      match mode with
      | shutdown_mode.DiscardPendingTasks =>
          { stopped with
            task_queue_ := [],
            channels := fun i =>
              if i ∈ stopped.task_queue_.map Prod.fst then Outcome.broken
              else stopped.channels i }
      | shutdown_mode.WaitForAllTasks => drain stopped
    { after with workers_ := 0, busy_count_ := 0 }

/-- Embeds reboot (thread_pool.h lines 137-146): a graceful shutdown, then,
unless the pool is somehow already running again, running_ := true and
launch_threads. No validation of thread_count happens here either. -/
def reboot (p : threadpool ε α) (thread_count : Nat) : threadpool ε α :=
  let q := shutdown p shutdown_mode.WaitForAllTasks
  if q.running_ then q
  else launch_threads { q with running_ := true } thread_count

/-- Embeds total_threads (thread_pool.h lines 149-152). -/
def total_threads (p : threadpool ε α) : Nat :=
  p.workers_

/-- Embeds pending_tasks (thread_pool.h lines 154-158). -/
def pending_tasks (p : threadpool ε α) : Nat :=
  p.task_queue_.length

/-- Embeds busy_threads (thread_pool.h lines 160-163). -/
def busy_threads (p : threadpool ε α) : Nat :=
  p.busy_count_

/-- Embeds is_running (thread_pool.h lines 170-173). -/
def is_running (p : threadpool ε α) : Bool :=
  p.running_

/-- Number of values of std::size_t, taken as 64-bit. -/
def W : Nat := 2 ^ 64

/-- C++ unsigned subtraction on std::size_t: a - b wraps modulo 2^64. -/
def size_sub (a b : Nat) : Nat :=
  (a % W + (W - b % W)) % W

/-- Embeds idle_threads (thread_pool.h lines 165-168): workers_.size() minus
busy_count_ in size_t arithmetic. -/
def idle_threads (p : threadpool ε α) : Nat :=
  size_sub p.workers_ p.busy_count_

/-- Embeds status (thread_pool.h lines 176-188). The lock_guard scope ends at
line 184, so total and pending are read from the state while the lock is held
(locked), while busy_count_ and running_ are loaded afterwards, from a possibly
later state (after); idle is then derived as total - busy in size_t
arithmetic. -/
def status (locked after : threadpool ε α) : status_info :=
  let total := locked.workers_
  let pending := locked.task_queue_.length
  let busy := after.busy_count_
  let idle := size_sub total busy
  { total_threads := total, busy_threads := busy, idle_threads := idle,
    pending_tasks := pending, running := after.running_ }

/-- Modelled from the wording of the specification (section 4.6), for
comparison with status: a snapshot whose five fields are all computed from one
single instant, under one critical section. -/
def status_spec (p : threadpool ε α) : status_info :=
  { total_threads := p.workers_, busy_threads := p.busy_count_,
    idle_threads := size_sub p.workers_ p.busy_count_,
    pending_tasks := p.task_queue_.length, running := p.running_ }

/-- The condition under which wait_all (thread_pool.h lines 105-110) returns:
both the fast path at line 107 and the condition-variable predicate at line 109
are busy_count_ == 0 && pending_tasks() == 0. -/
def wait_all_return_cond (p : threadpool ε α) : Prop :=
  p.busy_count_ = 0 ∧ pending_tasks p = 0

/-- Submitting a list of computations in order, collecting the channel ids of
the returned futures in call order. -/
def submit_all : threadpool ε α → List (Except ε α) → threadpool ε α × List Nat
  | p, [] => (p, [])
  | p, f :: fs =>
      match submit p f with
      | (p1, Except.error _) => (p1, [])
      | (p1, Except.ok fid) =>
          let r := submit_all p1 fs
          (r.1, fid :: r.2)

/-- The dequeue order: the channel ids of the tasks removed from the queue by
the first n worker steps, in the order the workers take them. -/
def exec_trace : threadpool ε α → Nat → List Nat
  | _, 0 => []
  | p, n + 1 =>
      match p.task_queue_ with
      | [] => []
      | (fid, _) :: _ => fid :: exec_trace (run_task p) n

lemma run_task_running (p : threadpool ε α) : (run_task p).running_ = p.running_ := by
  cases h : p.task_queue_ with
  | nil => simp [run_task, h]
  | cons e rest => cases e; simp [run_task, h]

lemma run_task_workers (p : threadpool ε α) : (run_task p).workers_ = p.workers_ := by
  cases h : p.task_queue_ with
  | nil => simp [run_task, h]
  | cons e rest => cases e; simp [run_task, h]

lemma run_task_busy (p : threadpool ε α) : (run_task p).busy_count_ = p.busy_count_ := by
  cases h : p.task_queue_ with
  | nil => simp [run_task, h]
  | cons e rest => cases e; simp [run_task, h]

lemma run_tasks_running (p : threadpool ε α) (n : Nat) :
    (run_tasks p n).running_ = p.running_ := by
  induction n generalizing p with
  | zero => rfl
  | succ k ih => rw [run_tasks, ih, run_task_running]

lemma run_tasks_workers (p : threadpool ε α) (n : Nat) :
    (run_tasks p n).workers_ = p.workers_ := by
  induction n generalizing p with
  | zero => rfl
  | succ k ih => rw [run_tasks, ih, run_task_workers]

lemma run_tasks_busy (p : threadpool ε α) (n : Nat) :
    (run_tasks p n).busy_count_ = p.busy_count_ := by
  induction n generalizing p with
  | zero => rfl
  | succ k ih => rw [run_tasks, ih, run_task_busy]

lemma run_tasks_drains (q : List (Nat × Except ε α)) (p : threadpool ε α)
    (h : p.task_queue_ = q) : (run_tasks p q.length).task_queue_ = [] := by
  induction q generalizing p with
  | nil => simpa [run_tasks] using h
  | cons e rest ih =>
      cases e with
      | mk fid f =>
          rw [List.length_cons, run_tasks]
          exact ih (run_task p) (by simp [run_task, h])

lemma drain_queue (p : threadpool ε α) : (drain p).task_queue_ = [] :=
  run_tasks_drains p.task_queue_ p rfl

lemma shutdown_running_false (p : threadpool ε α) (m : shutdown_mode) :
    (shutdown p m).running_ = false := by
  by_cases h : p.running_ = false
  · simp [shutdown, h]
  · cases m <;> simp [shutdown, h, drain, run_tasks_running]

lemma shutdown_state (p : threadpool ε α) (m : shutdown_mode) (h : p.running_ = true) :
    (shutdown p m).workers_ = 0 ∧ (shutdown p m).busy_count_ = 0 ∧
    (shutdown p m).task_queue_ = [] := by
  cases m <;>
    simp [shutdown, h, drain_queue,
      show (drain { p with running_ := false }).task_queue_ = [] from drain_queue _]

lemma shutdown_stopped (p : threadpool ε α) (m : shutdown_mode)
    (h : p.running_ = false) : shutdown p m = p := by
  simp [shutdown, h]

/-- C6: shutdown is idempotent in both modes: a first call on a running pool
leaves is_running() = false and total_threads() = 0, and any further shutdown
call, in either mode, returns with no error and leaves the whole pool state
exactly unchanged, still not running. -/
theorem shutdown_idempotent (p : threadpool ε α) (m m2 : shutdown_mode)
    (h : p.running_ = true) :
    is_running (shutdown p m) = false ∧ total_threads (shutdown p m) = 0 ∧
    shutdown (shutdown p m) m2 = shutdown p m ∧
    is_running (shutdown (shutdown p m) m2) = false := by
  refine ⟨shutdown_running_false p m, (shutdown_state p m h).1, ?_, ?_⟩
  · exact shutdown_stopped _ m2 (shutdown_running_false p m)
  · rw [shutdown_stopped _ m2 (shutdown_running_false p m)]
    exact shutdown_running_false p m

/-- Witness for shutdown_idempotent at a concrete running pool. -/
theorem shutdown_idempotent_witness :
    is_running (shutdown (construct 3 : threadpool Unit Nat)
        shutdown_mode.WaitForAllTasks) = false ∧
    total_threads (shutdown (construct 3 : threadpool Unit Nat)
        shutdown_mode.WaitForAllTasks) = 0 ∧
    shutdown (shutdown (construct 3 : threadpool Unit Nat)
        shutdown_mode.WaitForAllTasks) shutdown_mode.DiscardPendingTasks =
      shutdown (construct 3 : threadpool Unit Nat) shutdown_mode.WaitForAllTasks ∧
    is_running (shutdown (shutdown (construct 3 : threadpool Unit Nat)
        shutdown_mode.WaitForAllTasks) shutdown_mode.DiscardPendingTasks) = false :=
  shutdown_idempotent (construct 3) shutdown_mode.WaitForAllTasks
    shutdown_mode.DiscardPendingTasks (by decide)

/-- C1 (code_bug evidence): launch_threads performs no validation at all, so
constructing with 0 threads succeeds silently with total_threads() = 0, the
pool reporting itself running; constructing with 4097 threads succeeds with
total_threads() = 4097; and reboot(0) restarts the pool with 0 workers. The
specification (sections 4.7, 7, 8) and the repository test "invalid thread
counts are rejected" (src/tests/test_thread_pool.cpp lines 602-605) both
require counts 0 and 4097 to be rejected with an error instead. -/
theorem construct_no_validation :
    total_threads (construct 0 : threadpool Unit Nat) = 0 ∧
    is_running (construct 0 : threadpool Unit Nat) = true ∧
    total_threads (construct 4097 : threadpool Unit Nat) = 4097 ∧
    is_running (construct 4097 : threadpool Unit Nat) = true ∧
    is_running (reboot (construct 1 : threadpool Unit Nat) 0) = true ∧
    total_threads (reboot (construct 1 : threadpool Unit Nat) 0) = 0 := by
  refine ⟨rfl, rfl, rfl, rfl, ?_, ?_⟩ <;> decide

/-- C10: constructed with the default argument, the pool creates
default_thread_count() workers: hardware_concurrency() of them, and exactly 4
when hardware concurrency cannot be determined (reports 0). -/
theorem default_count_spec (hc : Nat) :
    total_threads (construct (default_thread_count hc) : threadpool Unit Nat) =
      (if hc = 0 then 4 else hc) ∧
    default_thread_count 0 = 4 := by
  constructor
  · simp [construct, launch_threads, total_threads, default_thread_count]
  · rfl

/-- C3: submit on a pool that is not running fails at once with the
not-running error and changes nothing: the pool state returned is exactly the
old one, so the task queue is untouched, no completion channel is created and
no channel id is consumed. -/
theorem submit_not_running (p : threadpool ε α) (f : Except ε α)
    (h : p.running_ = false) :
    submit p f = (p, Except.error SubmitError.notRunning) ∧
    (submit p f).1.task_queue_ = p.task_queue_ ∧
    (submit p f).1.channels = p.channels ∧
    (submit p f).1.next_id = p.next_id := by
  simp [submit, h]

/-- Witness for submit_not_running: submitting to a freshly shut-down pool. -/
theorem submit_not_running_witness :
    submit (shutdown (construct 2 : threadpool Unit Nat) shutdown_mode.WaitForAllTasks)
        (Except.ok 5) =
      (shutdown (construct 2 : threadpool Unit Nat) shutdown_mode.WaitForAllTasks,
        Except.error SubmitError.notRunning) ∧
    (submit (shutdown (construct 2 : threadpool Unit Nat) shutdown_mode.WaitForAllTasks)
        (Except.ok 5)).1.task_queue_ =
      (shutdown (construct 2 : threadpool Unit Nat)
        shutdown_mode.WaitForAllTasks).task_queue_ ∧
    (submit (shutdown (construct 2 : threadpool Unit Nat) shutdown_mode.WaitForAllTasks)
        (Except.ok 5)).1.channels =
      (shutdown (construct 2 : threadpool Unit Nat)
        shutdown_mode.WaitForAllTasks).channels ∧
    (submit (shutdown (construct 2 : threadpool Unit Nat) shutdown_mode.WaitForAllTasks)
        (Except.ok 5)).1.next_id =
      (shutdown (construct 2 : threadpool Unit Nat)
        shutdown_mode.WaitForAllTasks).next_id :=
  submit_not_running _ (Except.ok 5) (shutdown_running_false _ _)

lemma submit_keeps_running (p : threadpool ε α) (f : Except ε α) :
    (submit p f).1.running_ = p.running_ := by
  by_cases h : p.running_ = false <;> simp [submit, h]

lemma run_tasks_sets_last (q : List (Nat × Except ε α)) (fid : Nat) (f : Except ε α)
    (p : threadpool ε α) (hq : p.task_queue_ = q ++ [(fid, f)])
    (hfresh : ∀ e ∈ q, e.1 ≠ fid) :
    (run_tasks p (q.length + 1)).channels fid = exec_outcome f := by
  induction q generalizing p with
  | nil =>
      rw [List.length_nil, Nat.zero_add, run_tasks, run_tasks]
      simp [run_task, hq]
  | cons e rest ih =>
      cases e with
      | mk gid g =>
          rw [List.length_cons, run_tasks]
          exact ih (run_task p) (by simp [run_task, hq]) fun x hx => hfresh x (by simp [hx])

/-- C2: a computation submitted while the pool runs gets back a handle on a
fresh completion channel, and once a worker has executed the task (here: after
the worker loop has consumed every earlier task and then this one) that
channel holds exactly the value the computation returned, not a default and
not any other value. The computation is given as a function g applied to an
argument b captured at submission time. -/
theorem submit_yields_value (p : threadpool ε α) (g : β → α) (b : β)
    (hrun : p.running_ = true) (hfresh : ∀ e ∈ p.task_queue_, e.1 ≠ p.next_id) :
    (submit p (Except.ok (g b))).2 = Except.ok p.next_id ∧
    (run_tasks (submit p (Except.ok (g b))).1
        (p.task_queue_.length + 1)).channels p.next_id = Outcome.value (g b) := by
  constructor
  · simp [submit, hrun]
  · have h1 : (submit p (Except.ok (g b))).1.task_queue_ =
        p.task_queue_ ++ [(p.next_id, Except.ok (g b))] := by
      simp [submit, hrun]
    simpa [exec_outcome] using
      run_tasks_sets_last p.task_queue_ p.next_id (Except.ok (g b)) _ h1 hfresh

/-- Witness for submit_yields_value: submitting the computation multiplying
its argument 5 by 10 to a fresh single-thread pool yields the value 50. -/
theorem submit_yields_value_witness :
    (submit (construct 1 : threadpool Unit Nat)
        (Except.ok ((fun x => x * 10) 5))).2 =
      Except.ok (construct 1 : threadpool Unit Nat).next_id ∧
    (run_tasks (submit (construct 1 : threadpool Unit Nat)
          (Except.ok ((fun x => x * 10) 5))).1
        ((construct 1 : threadpool Unit Nat).task_queue_.length + 1)).channels
        (construct 1 : threadpool Unit Nat).next_id =
      Outcome.value ((fun x => x * 10) 5) :=
  submit_yields_value (construct 1) (fun x => x * 10) 5 (by decide) (by decide)

/-- C9: a task whose computation raises an error e has that error captured
into its completion channel when a worker executes it; the worker loop goes
on (modelled by run_tasks being defined past that iteration), the pool is
still running afterwards, and a subsequent submission is accepted and, once
executed, produces its own outcome. -/
theorem task_error_isolated (p : threadpool ε α) (e : ε) (g : Except ε α)
    (hrun : p.running_ = true) (hfresh : ∀ x ∈ p.task_queue_, x.1 ≠ p.next_id) :
    (submit p (Except.error e)).2 = Except.ok p.next_id ∧
    (run_tasks (submit p (Except.error e)).1
        (p.task_queue_.length + 1)).channels p.next_id = Outcome.error e ∧
    is_running (run_tasks (submit p (Except.error e)).1
        (p.task_queue_.length + 1)) = true ∧
    (submit (run_tasks (submit p (Except.error e)).1
        (p.task_queue_.length + 1)) g).2 =
      Except.ok (run_tasks (submit p (Except.error e)).1
        (p.task_queue_.length + 1)).next_id ∧
    (run_tasks (submit (run_tasks (submit p (Except.error e)).1
          (p.task_queue_.length + 1)) g).1 1).channels
        (run_tasks (submit p (Except.error e)).1
          (p.task_queue_.length + 1)).next_id = exec_outcome g := by
  have h1 : (submit p (Except.error e)).1.task_queue_ =
      p.task_queue_ ++ [(p.next_id, Except.error e)] := by
    simp [submit, hrun]
  have hrun1 : (submit p (Except.error e)).1.running_ = true := by
    rw [submit_keeps_running]; exact hrun
  have hrun2 : (run_tasks (submit p (Except.error e)).1
      (p.task_queue_.length + 1)).running_ = true := by
    rw [run_tasks_running]; exact hrun1
  have hq2 : (run_tasks (submit p (Except.error e)).1
      (p.task_queue_.length + 1)).task_queue_ = [] := by
    have := run_tasks_drains ((submit p (Except.error e)).1.task_queue_)
      (submit p (Except.error e)).1 rfl
    rwa [h1, List.length_append, List.length_singleton] at this
  have key : ∀ q : threadpool ε α, q.running_ = true → q.task_queue_ = [] →
      (submit q g).2 = Except.ok q.next_id ∧
      (run_tasks (submit q g).1 1).channels q.next_id = exec_outcome g := by
    intro q hq hqe
    constructor
    · simp [submit, hq]
    · have h3 : (submit q g).1.task_queue_ = [] ++ [(q.next_id, g)] := by
        simp [submit, hq, hqe]
      simpa using run_tasks_sets_last [] q.next_id g _ h3 (by simp)
  refine ⟨by simp [submit, hrun], ?_, ?_, ?_, ?_⟩
  · exact run_tasks_sets_last p.task_queue_ p.next_id (Except.error e) _ h1 hfresh
  · simpa [is_running] using hrun2
  · exact (key _ hrun2 hq2).1
  · exact (key _ hrun2 hq2).2

/-- Witness for task_error_isolated: a failing task submitted to a fresh
single-thread pool, followed by a successful submission of the value 7. -/
theorem task_error_isolated_witness :
    (submit (construct 1 : threadpool Unit Nat) (Except.error ())).2 =
      Except.ok (construct 1 : threadpool Unit Nat).next_id ∧
    (run_tasks (submit (construct 1 : threadpool Unit Nat) (Except.error ())).1
        ((construct 1 : threadpool Unit Nat).task_queue_.length + 1)).channels
        (construct 1 : threadpool Unit Nat).next_id = Outcome.error () ∧
    is_running (run_tasks (submit (construct 1 : threadpool Unit Nat)
        (Except.error ())).1
        ((construct 1 : threadpool Unit Nat).task_queue_.length + 1)) = true ∧
    (submit (run_tasks (submit (construct 1 : threadpool Unit Nat)
        (Except.error ())).1
        ((construct 1 : threadpool Unit Nat).task_queue_.length + 1))
        (Except.ok 7)).2 =
      Except.ok (run_tasks (submit (construct 1 : threadpool Unit Nat)
        (Except.error ())).1
        ((construct 1 : threadpool Unit Nat).task_queue_.length + 1)).next_id ∧
    (run_tasks (submit (run_tasks (submit (construct 1 : threadpool Unit Nat)
          (Except.error ())).1
          ((construct 1 : threadpool Unit Nat).task_queue_.length + 1))
          (Except.ok 7)).1 1).channels
        (run_tasks (submit (construct 1 : threadpool Unit Nat)
          (Except.error ())).1
          ((construct 1 : threadpool Unit Nat).task_queue_.length + 1)).next_id =
      exec_outcome (Except.ok 7) :=
  task_error_isolated (construct 1) () (Except.ok 7) (by decide) (by decide)

/-- C4: shutdown in DiscardPendingTasks mode on a running pool empties the
task queue; every task still queued at that instant has its completion channel
become broken (destroying the queued closure drops the last reference to its
packaged_task), which is distinguishable: it is not the pending state (so a
retrieval does not wait forever) and not a value (so no default or other value
is returned). Channels of tasks no longer in the queue — already dequeued and
run, or running to completion during the join — are left untouched. -/
theorem shutdown_discard_semantics (p : threadpool ε α) (h : p.running_ = true) :
    (shutdown p shutdown_mode.DiscardPendingTasks).task_queue_ = [] ∧
    (∀ x ∈ p.task_queue_,
      (shutdown p shutdown_mode.DiscardPendingTasks).channels x.1 = Outcome.broken ∧
      (shutdown p shutdown_mode.DiscardPendingTasks).channels x.1 ≠ Outcome.pending ∧
      ∀ v, (shutdown p shutdown_mode.DiscardPendingTasks).channels x.1 ≠ Outcome.value v) ∧
    (∀ fid, fid ∉ p.task_queue_.map Prod.fst →
      (shutdown p shutdown_mode.DiscardPendingTasks).channels fid = p.channels fid) := by
  have hch : (shutdown p shutdown_mode.DiscardPendingTasks).channels = fun i =>
      if i ∈ p.task_queue_.map Prod.fst then Outcome.broken else p.channels i := by
    simp [shutdown, h]
  refine ⟨by simp [shutdown, h], ?_, ?_⟩
  · intro x hx
    have hmem : x.1 ∈ p.task_queue_.map Prod.fst := List.mem_map_of_mem Prod.fst hx
    rw [hch]
    simp [hmem]
  · intro fid hfid
    rw [hch]
    simp [hfid]

/-- Witness for shutdown_discard_semantics: a running two-thread pool with one
queued task whose channel id is 0. -/
theorem shutdown_discard_semantics_witness :
    (shutdown (⟨2, [(0, Except.ok 1)], fun _ => Outcome.pending, 1, 0, true⟩ :
        threadpool Unit Nat) shutdown_mode.DiscardPendingTasks).task_queue_ = [] ∧
    (∀ x ∈ (⟨2, [(0, Except.ok 1)], fun _ => Outcome.pending, 1, 0, true⟩ :
        threadpool Unit Nat).task_queue_,
      (shutdown (⟨2, [(0, Except.ok 1)], fun _ => Outcome.pending, 1, 0, true⟩ :
        threadpool Unit Nat) shutdown_mode.DiscardPendingTasks).channels x.1 =
          Outcome.broken ∧
      (shutdown (⟨2, [(0, Except.ok 1)], fun _ => Outcome.pending, 1, 0, true⟩ :
        threadpool Unit Nat) shutdown_mode.DiscardPendingTasks).channels x.1 ≠
          Outcome.pending ∧
      ∀ v, (shutdown (⟨2, [(0, Except.ok 1)], fun _ => Outcome.pending, 1, 0, true⟩ :
        threadpool Unit Nat) shutdown_mode.DiscardPendingTasks).channels x.1 ≠
          Outcome.value v) ∧
    (∀ fid, fid ∉ (⟨2, [(0, Except.ok 1)], fun _ => Outcome.pending, 1, 0, true⟩ :
        threadpool Unit Nat).task_queue_.map Prod.fst →
      (shutdown (⟨2, [(0, Except.ok 1)], fun _ => Outcome.pending, 1, 0, true⟩ :
        threadpool Unit Nat) shutdown_mode.DiscardPendingTasks).channels fid =
      (⟨2, [(0, Except.ok 1)], fun _ => Outcome.pending, 1, 0, true⟩ :
        threadpool Unit Nat).channels fid) :=
  shutdown_discard_semantics
    (⟨2, [(0, Except.ok 1)], fun _ => Outcome.pending, 1, 0, true⟩ : threadpool Unit Nat)
    rfl

/-- C8: the condition under which wait_all returns (both the fast path and the
condition-variable predicate are busy_count == 0 && pending_tasks() == 0)
holds on a freshly constructed pool with no submission ever made, so wait_all
returns immediately there; it holds after shutdown in either mode (no worker
busy, queue drained or discarded), so wait_all is safe after shutdown and
returns immediately; and whenever wait_all returns, pending_tasks() = 0 and
busy_threads() = 0. -/
theorem wait_all_spec (p : threadpool ε α) (n : Nat) (m : shutdown_mode)
    (h : p.running_ = true) :
    wait_all_return_cond (construct n : threadpool ε α) ∧
    wait_all_return_cond (shutdown p m) ∧
    (∀ q : threadpool ε α, wait_all_return_cond q →
      pending_tasks q = 0 ∧ busy_threads q = 0) := by
  refine ⟨?_, ?_, ?_⟩
  · constructor <;> simp [construct, launch_threads, pending_tasks]
  · obtain ⟨hw, hb, hq⟩ := shutdown_state p m h
    exact ⟨hb, by simp [pending_tasks, hq]⟩
  · intro q hq
    exact ⟨hq.2, hq.1⟩

/-- Witness for wait_all_spec: a fresh empty pool and a shut-down pool. -/
theorem wait_all_spec_witness :
    wait_all_return_cond (construct 4 : threadpool Unit Nat) ∧
    wait_all_return_cond (shutdown (construct 2 : threadpool Unit Nat)
      shutdown_mode.DiscardPendingTasks) ∧
    (∀ q : threadpool Unit Nat, wait_all_return_cond q →
      pending_tasks q = 0 ∧ busy_threads q = 0) :=
  wait_all_spec (construct 2) 4 shutdown_mode.DiscardPendingTasks (by decide)

lemma exec_trace_full (q : List (Nat × Except ε α)) (p : threadpool ε α)
    (h : p.task_queue_ = q) : exec_trace p q.length = q.map Prod.fst := by
  induction q generalizing p with
  | nil => simp [exec_trace]
  | cons e rest ih =>
      cases e with
      | mk fid f =>
          rw [List.length_cons]
          simp only [exec_trace, h, List.map_cons]
          rw [ih (run_task p) (by simp [run_task, h])]

lemma submit_all_spec (fs : List (Except ε α)) (p : threadpool ε α)
    (h : p.running_ = true) :
    (submit_all p fs).1.task_queue_ =
      p.task_queue_ ++ List.zip (List.range' p.next_id fs.length) fs ∧
    (submit_all p fs).2 = List.range' p.next_id fs.length := by
  induction fs generalizing p with
  | nil => simp [submit_all]
  | cons f rest ih =>
      have hs2 : (submit p f).2 = Except.ok p.next_id := by simp [submit, h]
      have hq1 : (submit p f).1.task_queue_ = p.task_queue_ ++ [(p.next_id, f)] := by
        simp [submit, h]
      have hn1 : (submit p f).1.next_id = p.next_id + 1 := by simp [submit, h]
      have hr1 : (submit p f).1.running_ = true := by rw [submit_keeps_running]; exact h
      have hs : submit p f = ((submit p f).1, Except.ok p.next_id) := by rw [← hs2]
      have hstep : submit_all p (f :: rest) =
          ((submit_all (submit p f).1 rest).1,
            p.next_id :: (submit_all (submit p f).1 rest).2) := by
        rw [submit_all, hs]
      obtain ⟨ih1, ih2⟩ := ih (submit p f).1 hr1
      constructor
      · rw [hstep]
        simp only
        rw [ih1, hq1, hn1]
        simp [List.range'_succ, List.append_assoc]
      · rw [hstep]
        simp only
        rw [ih2, hn1]
        simp [List.range'_succ]

/-- C7: tasks are dequeued in strictly FIFO submission order. Submitting a
list of computations while the pool runs returns their channel ids in
consecutive submission order, and the full dequeue trace of the worker loop
(which in a single-worker pool is also the execution order) is exactly the ids
already queued, in queue order, followed by the new ids in submission
order. -/
theorem fifo_order (p : threadpool ε α) (fs : List (Except ε α))
    (h : p.running_ = true) :
    (submit_all p fs).2 = List.range' p.next_id fs.length ∧
    exec_trace (submit_all p fs).1 (submit_all p fs).1.task_queue_.length =
      p.task_queue_.map Prod.fst ++ (submit_all p fs).2 := by
  obtain ⟨h1, h2⟩ := submit_all_spec fs p h
  refine ⟨h2, ?_⟩
  rw [exec_trace_full _ _ rfl, h1, h2]
  rw [List.map_append, List.map_fst_zip]
  rw [List.length_range']

/-- Witness for fifo_order: three tasks submitted to a fresh one-thread pool
are dequeued as ids 0, 1, 2, in submission order. -/
theorem fifo_order_witness :
    (submit_all (construct 1 : threadpool Unit Nat)
        ([Except.ok 1, Except.ok 2, Except.ok 3] : List (Except Unit Nat))).2 =
      List.range' (construct 1 : threadpool Unit Nat).next_id
        ([Except.ok 1, Except.ok 2, Except.ok 3] : List (Except Unit Nat)).length ∧
    exec_trace (submit_all (construct 1 : threadpool Unit Nat)
        ([Except.ok 1, Except.ok 2, Except.ok 3] : List (Except Unit Nat))).1
      (submit_all (construct 1 : threadpool Unit Nat)
        ([Except.ok 1, Except.ok 2, Except.ok 3] :
          List (Except Unit Nat))).1.task_queue_.length =
      (construct 1 : threadpool Unit Nat).task_queue_.map Prod.fst ++
        (submit_all (construct 1 : threadpool Unit Nat)
          ([Except.ok 1, Except.ok 2, Except.ok 3] : List (Except Unit Nat))).2 :=
  fifo_order (construct 1)
    ([Except.ok 1, Except.ok 2, Except.ok 3] : List (Except Unit Nat)) (by decide)

/-- C5 counterexample: the snapshot returned by status() is not computed under
one critical section — the lock_guard scope ends at thread_pool.h line 184 and
busy_count_ and running_ are loaded only afterwards — so it need not agree
with the single-instant snapshot of either of the two states the call reads
from, and busy_threads can exceed total_threads in the returned snapshot.
Concretely: status reads total = 1, pending = 0 from a one-thread pool inside
the critical section (first state); before the later loads, another thread
shuts the pool down, reboots it with 2 threads and submits two tasks that both
start executing (second state, busy_count_ = 2); the returned snapshot then
has total_threads = 1 but busy_threads = 2, and differs from the one-instant
snapshot of both states. -/
theorem status_mixed_instants :
    status (⟨1, [], fun _ => Outcome.pending, 0, 0, true⟩ : threadpool Unit Nat)
        (⟨2, [], fun _ => Outcome.pending, 2, 2, true⟩ : threadpool Unit Nat) ≠
      status_spec
        (⟨1, [], fun _ => Outcome.pending, 0, 0, true⟩ : threadpool Unit Nat) ∧
    status (⟨1, [], fun _ => Outcome.pending, 0, 0, true⟩ : threadpool Unit Nat)
        (⟨2, [], fun _ => Outcome.pending, 2, 2, true⟩ : threadpool Unit Nat) ≠
      status_spec
        (⟨2, [], fun _ => Outcome.pending, 2, 2, true⟩ : threadpool Unit Nat) ∧
    (status (⟨1, [], fun _ => Outcome.pending, 0, 0, true⟩ : threadpool Unit Nat)
        (⟨2, [], fun _ => Outcome.pending, 2, 2, true⟩ :
          threadpool Unit Nat)).busy_threads >
      (status (⟨1, [], fun _ => Outcome.pending, 0, 0, true⟩ : threadpool Unit Nat)
        (⟨2, [], fun _ => Outcome.pending, 2, 2, true⟩ :
          threadpool Unit Nat)).total_threads := by
  refine ⟨?_, ?_, ?_⟩ <;> decide

/-- C5 amended: in every snapshot returned by status(), total_threads and
pending_tasks are computed together under one critical section (from the state
while the lock is held) and are mutually consistent; busy_threads and running
are read only after the lock is released (from a possibly later state); and
idle_threads is derived as total_threads - busy_threads in size_t arithmetic,
so idle_threads + busy_threads = total_threads modulo 2^64 holds in every
snapshot, while busy_threads may exceed total_threads if the worker set
changed between the two reads. -/
theorem status_fields (s1 s2 : threadpool ε α) (h : s2.busy_count_ < W) :
    (status s1 s2).total_threads = total_threads s1 ∧
    (status s1 s2).pending_tasks = pending_tasks s1 ∧
    (status s1 s2).busy_threads = busy_threads s2 ∧
    (status s1 s2).running = is_running s2 ∧
    ((status s1 s2).idle_threads + (status s1 s2).busy_threads) % W =
      (status s1 s2).total_threads % W := by
  refine ⟨rfl, rfl, rfl, rfl, ?_⟩
  show (size_sub s1.workers_ s2.busy_count_ + s2.busy_count_) % W =
    s1.workers_ % W
  rw [size_sub, Nat.mod_eq_of_lt h, Nat.mod_add_mod, Nat.add_assoc,
    Nat.sub_add_cancel (Nat.le_of_lt h), Nat.add_mod_right, Nat.mod_mod_of_dvd]
  exact dvd_rfl

/-- Witness for status_fields at two concrete states around the lock
release. -/
theorem status_fields_witness :
    (status (⟨3, [(0, Except.ok 1)], fun _ => Outcome.pending, 1, 0, true⟩ :
          threadpool Unit Nat)
        (⟨3, [], fun _ => Outcome.pending, 1, 1, true⟩ :
          threadpool Unit Nat)).total_threads =
      total_threads (⟨3, [(0, Except.ok 1)], fun _ => Outcome.pending, 1, 0, true⟩ :
          threadpool Unit Nat) ∧
    (status (⟨3, [(0, Except.ok 1)], fun _ => Outcome.pending, 1, 0, true⟩ :
          threadpool Unit Nat)
        (⟨3, [], fun _ => Outcome.pending, 1, 1, true⟩ :
          threadpool Unit Nat)).pending_tasks =
      pending_tasks (⟨3, [(0, Except.ok 1)], fun _ => Outcome.pending, 1, 0, true⟩ :
          threadpool Unit Nat) ∧
    (status (⟨3, [(0, Except.ok 1)], fun _ => Outcome.pending, 1, 0, true⟩ :
          threadpool Unit Nat)
        (⟨3, [], fun _ => Outcome.pending, 1, 1, true⟩ :
          threadpool Unit Nat)).busy_threads =
      busy_threads (⟨3, [], fun _ => Outcome.pending, 1, 1, true⟩ :
          threadpool Unit Nat) ∧
    (status (⟨3, [(0, Except.ok 1)], fun _ => Outcome.pending, 1, 0, true⟩ :
          threadpool Unit Nat)
        (⟨3, [], fun _ => Outcome.pending, 1, 1, true⟩ :
          threadpool Unit Nat)).running =
      is_running (⟨3, [], fun _ => Outcome.pending, 1, 1, true⟩ :
          threadpool Unit Nat) ∧
    ((status (⟨3, [(0, Except.ok 1)], fun _ => Outcome.pending, 1, 0, true⟩ :
          threadpool Unit Nat)
        (⟨3, [], fun _ => Outcome.pending, 1, 1, true⟩ :
          threadpool Unit Nat)).idle_threads +
      (status (⟨3, [(0, Except.ok 1)], fun _ => Outcome.pending, 1, 0, true⟩ :
          threadpool Unit Nat)
        (⟨3, [], fun _ => Outcome.pending, 1, 1, true⟩ :
          threadpool Unit Nat)).busy_threads) % W =
      (status (⟨3, [(0, Except.ok 1)], fun _ => Outcome.pending, 1, 0, true⟩ :
          threadpool Unit Nat)
        (⟨3, [], fun _ => Outcome.pending, 1, 1, true⟩ :
          threadpool Unit Nat)).total_threads % W :=
  status_fields
    (⟨3, [(0, Except.ok 1)], fun _ => Outcome.pending, 1, 0, true⟩ :
      threadpool Unit Nat)
    (⟨3, [], fun _ => Outcome.pending, 1, 1, true⟩ : threadpool Unit Nat)
    (by decide)

end abin
